import Mathlib

/-
Verification of the cppcmb core (cppcmb.hpp): the reader, the result model
(success / failure / result), the combinator identity protocol and the action
combinator. Sources are modelled as Lean lists; the C++ size_t cursor is a
Nat; assertion failures (contract violations) are modelled by Option-returning
operations yielding none.
-/

namespace cppcmb

/-- The reader (`reader<Src>`): a source sequence and a cursor offset.
The C++ reader holds a non-owning pointer to the source; in the value
embedding the source is carried directly. -/
structure reader (α : Type) where
  source : List α
  cursor : Nat
deriving DecidableEq

/-- The reader constructor `reader(Src const& src)`: cursor starts at 0. -/
def reader.ofSource {α : Type} (src : List α) : reader α :=
  { source := src, cursor := 0 }

/-- `reader::is_end`: `cursor() == std::size(source())`. -/
def reader.is_end {α : Type} (r : reader α) : Bool :=
  r.cursor == r.source.length

/-- `reader::current`: `source()[cursor()]`, partial (out-of-range subscript
is undefined in C++), modelled with Option. -/
def reader.current {α : Type} (r : reader α) : Option α :=
  r.source.get? r.cursor

/-- `reader::seek`: asserts `idx < std::size(source())` then sets the cursor.
An assertion failure (contract violation) is `none`. -/
def reader.seek {α : Type} (r : reader α) (idx : Nat) : Option (reader α) :=
  if idx < r.source.length then
    some { r with cursor := idx }
  else
    none

/-- `reader::next`: asserts `!is_end()` then performs `seek(cursor() + 1)`
(whose own assertion may still fail). -/
def reader.next {α : Type} (r : reader α) : Option (reader α) :=
  if r.is_end then none else r.seek (r.cursor + 1)

/-- `success<T>`: the produced value and the remaining count.
The four C++ access forms of `value()` (mutable/const lvalue, rvalue,
const rvalue) all return the stored `m_Value`; under value semantics they
collapse to the single projection `value`. -/
structure success (T : Type) where
  value : T
  remaining : Nat
deriving DecidableEq

/-- `failure`: the furthest position reached before failing. -/
structure failure where
  furthest : Nat
deriving DecidableEq

/-- `result<T>`: a discriminated union (`std::variant<success<T>, failure>`)
constructed from either a `success<T>` or a `failure`. -/
inductive result (T : Type) where
  | of_success : success T → result T
  | of_failure : failure → result T
deriving DecidableEq

/-- `result::is_success`: `std::holds_alternative<success_type>(m_Data)`. -/
def result.is_success {T : Type} : result T → Bool
  | .of_success _ => true
  | .of_failure _ => false

/-- `result::is_failure`: `std::holds_alternative<failure_type>(m_Data)`. -/
def result.is_failure {T : Type} : result T → Bool
  | .of_success _ => false
  | .of_failure _ => true

/-- `detail::combinator_base`: carries the instance identity `m_ID`. -/
structure combinator_base where
  m_ID : Nat
deriving DecidableEq

/-- Constructing a `combinator_base` performs `m_ID = s_ID_Counter++` on the
process-wide `std::size_t` counter: the new instance receives the current
counter value and the counter advances by one, wrapping modulo 2^64 as the
unsigned 64-bit `size_t` does. State passing makes the counter explicit; both
the stored id and the new counter are reduced modulo 2^64. -/
def combinator_base.construct (counter : Nat) : combinator_base × Nat :=
  ({ m_ID := counter % 2 ^ 64 }, (counter + 1) % 2 ^ 64)

/-- `combinator_base::parser_id`: returns `m_ID`. -/
def combinator_base.parser_id (b : combinator_base) : Nat :=
  b.m_ID

/-- `action<Cmb, Fn>`: owns the wrapped combinator and the transform
function (`m_Parser`, `m_Fn`), as built by `combinator::operator[]`. -/
structure action (Cmb Fn : Type) where
  m_Parser : Cmb
  m_Fn : Fn

/-- Modelled from the spec: the invocation operation of `action` is absent
from the source (`XXX(LPeter1997): Implement`); per the stated contract,
invoking the action invokes the wrapped combinator, on `Success(value,
remaining)` returns `Success(fn(value), remaining)` with the same remaining,
and returns a `Failure` unchanged. A combinator is modelled as a function
from a reader state to a result. -/
def action.invoke {σ T U : Type} (a : action (σ → result T) (T → U))
    (rd : σ) : result U :=
  match a.m_Parser rd with
  | .of_success s => .of_success { value := a.m_Fn s.value, remaining := s.remaining }
  | .of_failure f => .of_failure f

/- ================= Theorems for the claims ================= -/

/-- C1 counterexample: the claim allows `seek(idx)` for every `idx ≤ L`, but
the code asserts `idx < L`. At source `[0]` (length 1) and `idx = 1` the
bound `idx ≤ L` holds yet `seek` is a contract violation. -/
theorem C1_counterexample :
    1 ≤ ([0] : List Nat).length ∧ (reader.ofSource [(0 : Nat)]).seek 1 = none := by
  decide

/-- C1 (amended): for every reader and every `idx < length(source)`,
`seek(idx)` does not violate the assertion and afterwards `cursor() = idx`;
for `idx ≥ length(source)` (including `idx = length`), `seek(idx)` is a
contract violation. -/
theorem C1_seek_bounds {α : Type} (r : reader α) (idx : Nat) :
    (idx < r.source.length →
      r.seek idx = some { r with cursor := idx } ∧
      ∀ r₂ : reader α, r.seek idx = some r₂ → r₂.cursor = idx) ∧
    (r.source.length ≤ idx → r.seek idx = none) := by
  constructor
  · intro h
    refine ⟨by simp [reader.seek, h], ?_⟩
    intro r₂ h₂
    simp [reader.seek, h] at h₂
    simp [← h₂]
  · intro h
    simp [reader.seek, Nat.not_lt.mpr h]

/-- C1 witness: on the reader over `[0, 1]`, `seek 1` succeeds with cursor 1
and `seek 2` is a contract violation. -/
theorem C1_seek_bounds_witness :
    (reader.ofSource [(0 : Nat), 1]).seek 1
        = some { source := [0, 1], cursor := 1 } ∧
    (reader.ofSource [(0 : Nat), 1]).seek 2 = none :=
  ⟨((C1_seek_bounds (reader.ofSource [(0 : Nat), 1]) 1).1 (by decide)).1,
   (C1_seek_bounds (reader.ofSource [(0 : Nat), 1]) 2).2 (by decide)⟩

/-- C2: on the fresh reader over the length-1 source `[0]`, `is_end()` is
false, yet `next()` is a contract violation: the nested `seek(cursor()+1)`
assertion `idx < length` fails at `idx = 1`. The code contradicts the
precondition documented by its own assertion in `next()` (`!is_end()`). -/
theorem C2_next_contract_violation :
    (reader.ofSource [(0 : Nat)]).is_end = false ∧
    (reader.ofSource [(0 : Nat)]).next = none := by
  decide

/-- C3: if the wrapped combinator yields `Success(v, rem)` on a reader state,
the action built from it and `fn` yields `Success(fn v, rem)` on that same
state: value mapped through `fn`, remaining unchanged. -/
theorem C3_action_success {σ T U : Type} (c : σ → result T) (fn : T → U)
    (rd : σ) (v : T) (rem : Nat)
    (h : c rd = result.of_success { value := v, remaining := rem }) :
    (action.mk c fn).invoke rd
      = result.of_success { value := fn v, remaining := rem } := by
  simp [action.invoke, h]

/-- C3 witness: a combinator constantly returning `Success(3, 2)` wrapped
with the transform `(· + 1)` yields `Success(4, 2)`. -/
theorem C3_action_success_witness :
    (action.mk (fun _ : Nat => result.of_success { value := 3, remaining := 2 })
        (fun v => v + 1)).invoke 0
      = result.of_success { value := 4, remaining := 2 } :=
  C3_action_success _ _ 0 3 2 rfl

/-- C4: if the wrapped combinator yields `Failure(f)` on a reader state, the
action built from it and any transform yields that `Failure(f)` unchanged;
the result does not depend on the transform function at all, so the transform
is never invoked. -/
theorem C4_action_failure {σ T U : Type} (c : σ → result T) (rd : σ)
    (f : failure) (h : c rd = result.of_failure f) :
    ∀ fn : T → U, (action.mk c fn).invoke rd = result.of_failure f := by
  intro fn
  simp [action.invoke, h]

/-- C4 witness: a combinator constantly returning `Failure(5)` wrapped with
the transform `(· + 1)` yields `Failure(5)` unchanged. -/
theorem C4_action_failure_witness :
    (action.mk (fun _ : Nat => result.of_failure { furthest := 5 })
        (fun v : Nat => v + 1)).invoke 0
      = result.of_failure { furthest := 5 } :=
  C4_action_failure _ 0 { furthest := 5 } rfl (fun v => v + 1)

/-- C5: every `result<T>`, built from either a success or a failure, is
exactly one of the two: `is_success() ≠ is_failure()` always holds. -/
theorem C5_result_exactly_one {T : Type} (res : result T) :
    res.is_success ≠ res.is_failure := by
  cases res <;> simp [result.is_success, result.is_failure]

/-- C6: the success constructed from `(v, rem)` satisfies `value() = v` and
`remaining() = rem` (all four C++ access forms of `value()` return the one
stored `m_Value`, the single `value` projection here). -/
theorem C6_success_accessors {T : Type} (v : T) (rem : Nat) :
    (success.mk v rem).value = v ∧ (success.mk v rem).remaining = rem :=
  ⟨rfl, rfl⟩

/-- C7: the failure constructed from `f` satisfies `furthest() = f`. -/
theorem C7_failure_accessor (f : Nat) :
    (failure.mk f).furthest = f :=
  rfl

/-- C8 counterexample: at counter value `SIZE_MAX = 2^64 - 1` the first
construction receives id `2^64 - 1` and the counter wraps to 0, so the second
construction receives id 0: the later identity is not strictly greater. -/
theorem C8_counterexample :
    ((combinator_base.construct (2 ^ 64 - 1)).1).parser_id = 2 ^ 64 - 1 ∧
    ((combinator_base.construct (combinator_base.construct (2 ^ 64 - 1)).2).1).parser_id = 0 ∧
    ¬ ((combinator_base.construct (2 ^ 64 - 1)).1).parser_id
        < ((combinator_base.construct (combinator_base.construct (2 ^ 64 - 1)).2).1).parser_id := by
  refine ⟨?_, ?_, ?_⟩ <;> decide

/-- C8 (amended): two combinator bases constructed in sequence from any
counter state receive distinct identities; and provided the second
construction does not wrap the counter (`counter + 1 < 2^64`), the later
one's identity is strictly greater than the earlier one's. -/
theorem C8_ids_increasing (counter : Nat) :
    ((combinator_base.construct counter).1).parser_id
        ≠ ((combinator_base.construct (combinator_base.construct counter).2).1).parser_id ∧
    (counter + 1 < 2 ^ 64 →
      ((combinator_base.construct counter).1).parser_id
          < ((combinator_base.construct (combinator_base.construct counter).2).1).parser_id) := by
  have hM : (2 : Nat) ^ 64 = 18446744073709551616 := by norm_num
  simp only [combinator_base.construct, combinator_base.parser_id, hM]
  omega

/-- C8 witness: from counter state 0 the two identities are 0 and 1:
distinct, and strictly increasing since the counter does not wrap. -/
theorem C8_ids_increasing_witness :
    ((combinator_base.construct 0).1).parser_id
        ≠ ((combinator_base.construct (combinator_base.construct 0).2).1).parser_id ∧
    ((combinator_base.construct 0).1).parser_id
        < ((combinator_base.construct (combinator_base.construct 0).2).1).parser_id :=
  ⟨(C8_ids_increasing 0).1, (C8_ids_increasing 0).2 (by decide)⟩

/-- C9: a fresh reader over a source of length `L` has `cursor() = 0` and
`is_end() = (L == 0)`; in general `is_end()` holds iff the cursor equals the
source's length. -/
theorem C9_fresh_reader {α : Type} (src : List α) :
    (reader.ofSource src).cursor = 0 ∧
    (reader.ofSource src).is_end = (src.length == 0) ∧
    ∀ r : reader α, r.is_end = (r.cursor == r.source.length) := by
  refine ⟨rfl, ?_, fun r => rfl⟩
  show (0 == src.length) = (src.length == 0)
  cases src.length <;> rfl

/-- C10: whenever `seek(idx)` satisfies its own assertion (returns a reader),
the resulting reader has `is_end() = false`: seek can never position the
reader at end-of-input; and a fresh reader is at end-of-input only when the
source is empty. -/
theorem C10_seek_never_end {α : Type} :
    (∀ (r : reader α) (idx : Nat) (r₂ : reader α),
        r.seek idx = some r₂ → r₂.is_end = false) ∧
    (∀ src : List α, (reader.ofSource src).is_end = true → src.length = 0) := by
  constructor
  · intro r idx r₂ h
    unfold reader.seek at h
    split at h
    · cases h
      simp [reader.is_end]
      omega
    · cases h
  · intro src h
    simp [reader.ofSource, reader.is_end] at h
    omega

/-- C10 witness: seeking to 1 in the reader over `[0, 1]` yields a reader
that is not at end-of-input, and the empty source has length 0. -/
theorem C10_seek_never_end_witness :
    ({ source := [0, 1], cursor := 1 } : reader Nat).is_end = false ∧
    ([] : List Nat).length = 0 :=
  ⟨C10_seek_never_end.1 (reader.ofSource [(0 : Nat), 1]) 1
      { source := [0, 1], cursor := 1 } (by decide),
   C10_seek_never_end.2 [] (by decide)⟩

end cppcmb
